import Mathlib

/-!
Shallow embedding of the goutils logger package: configuration validation,
the severity-gated logging facade, log-file rotation naming, and the
retention/cleanup pass, together with theorems checking the specification's
claims against this embedding.
-/

namespace Goutils

/-- Severity constants, from the source (`LogLevelError = 0`, `LogLevelInfo = 1`,
`LogLevelDebug = 2`). -/
def LogLevelError : Nat := 0

def LogLevelInfo : Nat := 1

def LogLevelDebug : Nat := 2

/-- ASCII lower-casing of one character, modelling Go `strings.ToLower` on the
ASCII strings the validator compares against. -/
def toLowerChar (c : Char) : Char :=
  if 65 ≤ c.toNat ∧ c.toNat ≤ 90 then Char.ofNat (c.toNat + 32) else c

/-- Lower-casing of a string, character by character (Go `strings.ToLower`). -/
def toLowerStr (s : String) : String :=
  ⟨s.data.map toLowerChar⟩

/-- The `LoggerConfig` struct from the source. Go `int` fields are modelled
as `Int`. -/
structure LoggerConfig where
  LoggerName : String
  Level : String
  EnableConsoleLog : Bool
  EnableSyslog : Bool
  SyslogHost : String
  SyslogPort : Int
  SyslogProtocol : String
  OutputFolder : String
  RotationBySize : Bool
  MaxFileSizeMB : Int
  MaxLogFiles : Int
  RotationIntervalHour : Int
  deriving DecidableEq, Repr

/-- The `Validate` function from the source: returns `some errorMessage` where the
Go code returns a non-nil error and `none` where it returns nil.  The sequential
early-return structure of the Go code is mirrored by the nested conditionals;
the checks nested under `if c.EnableSyslog` in Go appear here as conjunctions
with `c.EnableSyslog`. -/
def Validate (c : LoggerConfig) : Option String :=
  if c.LoggerName = "" then
    some "logger name cannot be empty"
  else if toLowerStr c.Level ≠ "error" ∧ toLowerStr c.Level ≠ "info" ∧
      toLowerStr c.Level ≠ "debug" then
    some "invalid log level"
  else if c.EnableSyslog ∧ c.SyslogHost = "" then
    some "syslog host cannot be empty when syslog is enabled"
  else if c.EnableSyslog ∧ (c.SyslogPort ≤ 0 ∨ c.SyslogPort > 65535) then
    some "invalid syslog port"
  else if c.EnableSyslog ∧ toLowerStr c.SyslogProtocol ≠ "udp" ∧
      toLowerStr c.SyslogProtocol ≠ "tcp" then
    some "invalid syslog protocol"
  else if c.RotationBySize ∧ c.MaxFileSizeMB ≤ 0 then
    some "log max file size must be greater than 0 when size-based rotation is enabled"
  else if ¬c.RotationBySize ∧ c.RotationIntervalHour ≤ 0 then
    some "log rotation interval must be greater than 0 when time-based rotation is enabled"
  else if c.MaxLogFiles ≤ 0 then
    some "maximum number of log files must be greater than 0"
  else
    none

/-- The minimal valid configuration named by the spec: name set, `Level=info`,
syslog disabled, `RotationBySize=true`, `MaxFileSizeMB=10`, `MaxLogFiles=3`. -/
def minimalValidConfig : LoggerConfig :=
  { LoggerName := "app"
    Level := "info"
    EnableConsoleLog := false
    EnableSyslog := false
    SyslogHost := ""
    SyslogPort := 0
    SyslogProtocol := ""
    OutputFolder := "logs"
    RotationBySize := true
    MaxFileSizeMB := 10
    MaxLogFiles := 3
    RotationIntervalHour := 0 }

/-- One `Logger` view from the source: the severity threshold, the per-view
text prefix, and whether the file-logger and syslog sinks are non-nil. -/
structure GoLogger where
  loglevel : Nat
  pfx : String
  hasFileLogger : Bool
  hasSyslogger : Bool
  deriving DecidableEq, Repr

/-- The output of one facade call: the message written to the syslog sink and
the message written to the file/console logger, `none` when that sink is nil
or the call is suppressed. -/
structure LogOutput where
  syslogMsg : Option String
  fileMsg : Option String
  deriving DecidableEq, Repr

/-- The `Debugf` method: suppressed unless `loglevel >= LogLevelDebug`; the
caller-name segment (`caller := getCallerFuncName() + ": "`) is always part of
the composed message on the accepted path.  `callerName` stands for the string
returned by `getCallerFuncName` and `text` for the `Sprintf`-formatted body. -/
def Debugf (l : GoLogger) (callerName text : String) : LogOutput :=
  if LogLevelDebug ≤ l.loglevel then
    let caller := callerName ++ ": "
    { syslogMsg := if l.hasSyslogger then some (l.pfx ++ caller ++ "debug: " ++ text) else none
      fileMsg := if l.hasFileLogger then some (l.pfx ++ caller ++ "debug: " ++ text) else none }
  else
    { syslogMsg := none, fileMsg := none }

/-- The `Infof` method: suppressed unless `loglevel >= LogLevelInfo`; the
caller-name segment is included only when `loglevel >= LogLevelDebug`. -/
def Infof (l : GoLogger) (callerName text : String) : LogOutput :=
  if LogLevelInfo ≤ l.loglevel then
    let caller := if LogLevelDebug ≤ l.loglevel then callerName ++ ": " else ""
    { syslogMsg := if l.hasSyslogger then some (l.pfx ++ caller ++ "info: " ++ text) else none
      fileMsg := if l.hasFileLogger then some (l.pfx ++ caller ++ "info: " ++ text) else none }
  else
    { syslogMsg := none, fileMsg := none }

/-- The `Errorf` method: never suppressed; the caller-name segment is included
only when `loglevel >= LogLevelDebug`. -/
def Errorf (l : GoLogger) (callerName text : String) : LogOutput :=
  let caller := if LogLevelDebug ≤ l.loglevel then callerName ++ ": " else ""
  { syslogMsg := if l.hasSyslogger then some (l.pfx ++ caller ++ "error: " ++ text) else none
    fileMsg := if l.hasFileLogger then some (l.pfx ++ caller ++ "error: " ++ text) else none }

/-- The severity-string switch at the head of `initLoggerFactory` (lower-cased
level, default `info` for unrecognised strings). -/
def levelFromString (logLevel : String) : Nat :=
  let l := toLowerStr logLevel
  if l = "debug" then LogLevelDebug
  else if l = "info" then LogLevelInfo
  else if l = "error" then LogLevelError
  else LogLevelInfo

/-- The constructor closure returned by `initLoggerFactory` (part_000): it
copies the shared logger value and sets the view's prefix to `""` for an empty
argument and to `logPfx ++ ": "` otherwise. -/
def initLoggerFactoryView (base : GoLogger) (logPfx : String) : GoLogger :=
  { base with pfx := if logPfx ≠ "" then logPfx ++ ": " else "" }

/-- The constructor closure returned by the older `InitLoggerFactory` in
logger/logger.go: it calls `myLogger.logger.SetPrefix(logPrefix + ": ")`
unconditionally; this is the prefix text the shared `log.Logger` prepends to
every subsequent line. -/
def InitLoggerFactorySetPfx (logPfx : String) : String :=
  logPfx ++ ": "

/-- Wall-clock instant at the granularity the rotation code uses. -/
structure DateTime where
  year : Nat
  month : Nat
  day : Nat
  hour : Nat
  deriving DecidableEq, Repr

/-- Two-digit zero-padded decimal, as Go layout tokens `01`, `02`, `15`
render month, day and hour. -/
def pad2 (n : Nat) : String := if n < 10 then "0" ++ toString n else toString n

/-- Four-digit zero-padded decimal, as Go layout token `2006` renders
the year. -/
def pad4 (n : Nat) : String :=
  if n < 10 then "000" ++ toString n
  else if n < 100 then "00" ++ toString n
  else if n < 1000 then "0" ++ toString n
  else toString n

/-- Interpreter for the Go time layout used by `rotateLogFile`, recognising
exactly the tokens occurring in the layout string `"20060102-15"`: `2006`
(year), `01` (month), `02` (day), `15` (hour); any other character is copied
literally. -/
def goFormatTokens (t : DateTime) : List Char → String
  | '2' :: '0' :: '0' :: '6' :: rest => pad4 t.year ++ goFormatTokens t rest
  | '0' :: '1' :: rest => pad2 t.month ++ goFormatTokens t rest
  | '0' :: '2' :: rest => pad2 t.day ++ goFormatTokens t rest
  | '1' :: '5' :: rest => pad2 t.hour ++ goFormatTokens t rest
  | c :: rest => String.singleton c ++ goFormatTokens t rest
  | [] => ""

/-- The timestamp `time.Now().Format("20060102-15")` computed by
`rotateLogFile` at instant `t`. -/
def rotationTimestamp (t : DateTime) : String :=
  goFormatTokens t "20060102-15".data

/-- The externally visible effect of one successful `rotateLogFile` call:
the name the current file is renamed to, and the path reopened fresh. -/
structure RotateEffect where
  renamedTo : String
  reopenedPath : String
  deriving DecidableEq, Repr

/-- The `rotateLogFile` function from the source, on its successful path:
renames `fileName` to `fmt.Sprintf("%s.%s", fileName, timestamp)` and reopens
`fileName` in append/create mode. -/
def rotateLogFile (fileName : String) (t : DateTime) : RotateEffect :=
  { renamedTo := fileName ++ "." ++ rotationTimestamp t
    reopenedPath := fileName }

/-- The rotated-file name the claim mandates verbatim: suffix `YYYYMMDDHH`,
4-digit year, 2-digit month, 2-digit day, 2-digit hour with no other
characters.  This definition follows the claim's words, for comparison with
`rotateLogFile`. -/
def claimRotatedName (fileName : String) (t : DateTime) : String :=
  fileName ++ "." ++ (pad4 t.year ++ pad2 t.month ++ pad2 t.day ++ pad2 t.hour)

/-- One directory entry as returned by `os.ReadDir`. -/
structure DirEntry where
  name : String
  isDir : Bool
  deriving DecidableEq, Repr

/-- The candidate-collection loop of `cleanupLogFiles`: every entry whose name
is not the hardcoded `"kodo.log"` and which is not a directory. -/
def goCandidates (files : List DirEntry) : List String :=
  (files.filter fun f => f.name != "kodo.log" && !f.isDir).map fun f => f.name

/-- Byte-wise comparison of two strings, Go's `<=` on strings (identical to
code-point order on the ASCII names involved). -/
def strLeChars : List Char → List Char → Bool
  | [], _ => true
  | _ :: _, [] => false
  | a :: as, b :: bs =>
    if a.toNat < b.toNat then true
    else if b.toNat < a.toNat then false
    else strLeChars as bs

/-- Lexicographic order on strings used by `sort.Strings`. -/
def strLe (a b : String) : Bool := strLeChars a.data b.data

/-- Insertion into a sorted list, auxiliary to `sortStrings`. -/
def insertSorted (x : String) : List String → List String
  | [] => [x]
  | y :: ys => if strLe x y then x :: y :: ys else y :: insertSorted x ys

/-- Ascending sort of file names, modelling `sort.Strings` (insertion sort;
extensionally equal to any correct sort under the total order `strLe`). -/
def sortStrings : List String → List String
  | [] => []
  | x :: xs => insertSorted x (sortStrings xs)

/-- The deletion list of `cleanupLogFiles`: after sorting the candidates
ascending, the leading `len - maxLogFiles` names (`logFiles[:len(logFiles)-maxLogFiles]`)
when more than `maxLogFiles` candidates exist, else nothing. -/
def cleanupDeletions (files : List DirEntry) (maxLogFiles : Int) : List String :=
  let logFiles := sortStrings (goCandidates files)
  if (logFiles.length : Int) > maxLogFiles then
    logFiles.take ((logFiles.length : Int) - maxLogFiles).toNat
  else []

/-- Observable outcome of a cleanup pass: names successfully removed, and the
diagnostic lines printed to the process's diagnostic stream. -/
structure FsOutcome where
  deleted : List String
  diag : List String
  deriving DecidableEq, Repr

/-- The per-file deletion loop of `cleanupLogFiles`: each `os.Remove` either
succeeds (the oracle `removeOk` answers `true`) or prints a diagnostic and the
loop continues with the next candidate. -/
def attemptDeletes (removeOk : String → Bool) : List String → FsOutcome
  | [] => { deleted := [], diag := [] }
  | f :: rest =>
    let r := attemptDeletes removeOk rest
    if removeOk f then { deleted := f :: r.deleted, diag := r.diag }
    else { deleted := r.deleted, diag := ("failed to delete old log file " ++ f) :: r.diag }

/-- The whole `cleanupLogFiles` pass.  `readDirResult` is the outcome of
`os.ReadDir` (`none` = listing failure); on failure the function prints one
diagnostic and returns without deleting anything, otherwise it attempts to
delete each name in `cleanupDeletions`. -/
def cleanupLogFilesRun (readDirResult : Option (List DirEntry)) (maxLogFiles : Int)
    (removeOk : String → Bool) : FsOutcome :=
  match readDirResult with
  | none => { deleted := [], diag := ["failed to read log output folder"] }
  | some files => attemptDeletes removeOk (cleanupDeletions files maxLogFiles)

/-- Directory contents after a cleanup pass in which every `os.Remove`
succeeds: the entries whose names were not in the deletion list. -/
def remainingNames (files : List DirEntry) (maxLogFiles : Int) : List String :=
  (files.map fun f => f.name).filter fun n => !(cleanupDeletions files maxLogFiles).contains n

/-- One iteration of the time-based branch of the rotation loop in
`createCustomFileLogger`: given the remembered hour, the freshly observed hour
and the divisor `int(rotationInterval.Hours())`, it returns whether
`rotateLogFile` fires together with the new remembered hour.  `Int.tmod` is
Go's `%` (truncated division). -/
def timeRotationStep (lastHour currentHour intervalHours : Int) : Bool × Int :=
  if currentHour = lastHour then (false, lastHour)
  else if Int.tmod currentHour intervalHours = 0 then (true, currentHour)
  else (false, currentHour)

/-- Nanoseconds per hour, the value of `time.Hour`. -/
def nsPerHour : Int := 3600000000000

/-- Two's-complement wrap onto 64 bits (9223372036854775808 = 2^63,
18446744073709551616 = 2^64): the result of any Go int64 arithmetic whose
mathematical value is `x`. -/
def wrap64 (x : Int) : Int :=
  (x + 9223372036854775808) % 18446744073709551616 - 9223372036854775808

/-- The value `time.Duration(h) * time.Hour` computed by `initLoggerFactory`:
`time.Duration` is an int64 nanosecond count, so the multiplication wraps. -/
def rotationIntervalNs (h : Int) : Int := wrap64 (h * nsPerHour)

/-- Go `int(rotationInterval.Hours())`: the wrapped duration converted back to
whole hours, truncated toward zero — the divisor of the modulo expression in
the time-based rotation branch.  (`Hours()` divides in float64; for every
value involved in the theorems below the float result is exact enough that
truncation agrees with integer `Int.tdiv`.) -/
def intervalWholeHours (h : Int) : Int := Int.tdiv (rotationIntervalNs h) nsPerHour

/-! Helper lemmas. -/

/-- Values already inside the int64 range are unchanged by the wrap. -/
theorem wrap64_eq_of_lt {x : Int} (h0 : 0 ≤ x) (hlt : x < 9223372036854775808) :
    wrap64 x = x := by
  unfold wrap64
  rw [Int.emod_eq_of_lt (by omega) (by omega)]
  omega

/-- The severity switch maps the string `debug` to the debug threshold. -/
theorem levelFromString_debug : levelFromString "debug" = LogLevelDebug := by decide

/-- The severity switch maps the string `error` to the error threshold. -/
theorem levelFromString_error : levelFromString "error" = LogLevelError := by decide

/-- The deletion loop removes exactly the candidates whose `os.Remove`
succeeds, in order. -/
theorem attemptDeletes_deleted_eq_filter (removeOk : String → Bool) (l : List String) :
    (attemptDeletes removeOk l).deleted = l.filter removeOk := by
  induction l with
  | nil => rfl
  | cons f rest ih =>
    by_cases h : removeOk f <;> simp [attemptDeletes, h, ih, List.filter_cons]

/-- Every failed deletion leaves its diagnostic line in the output. -/
theorem attemptDeletes_diag_mem (removeOk : String → Bool) (l : List String) (f : String)
    (hf : f ∈ l) (hfail : removeOk f = false) :
    ("failed to delete old log file " ++ f) ∈ (attemptDeletes removeOk l).diag := by
  induction l with
  | nil => cases hf
  | cons g rest ih =>
    rcases List.mem_cons.1 hf with h | h
    · subst h
      simp [attemptDeletes, hfail]
    · by_cases hg : removeOk g
      · simpa [attemptDeletes, hg] using ih h
      · simp [attemptDeletes, hg]
        exact Or.inr (ih h)

/-! Claims. -/

/-- Claim C1, evaluated at its failing input: the cleanup pass excludes only
the hardcoded name `kodo.log`, not `<loggerName>.log`.  With logger name
`app` (live main file `app.log`) and `MaxLogFiles = 1`, the main file lands
in the deletion list and is gone from the directory after the pass, while the
same layout under the name `kodo` keeps its main file. -/
theorem cleanup_deletes_live_main_log :
    "app.log" ∈ cleanupDeletions
      [⟨"app.log", false⟩, ⟨"app.log.20250101-00", false⟩, ⟨"app.log.20250102-00", false⟩] 1 ∧
    remainingNames
      [⟨"app.log", false⟩, ⟨"app.log.20250101-00", false⟩, ⟨"app.log.20250102-00", false⟩] 1 =
      ["app.log.20250102-00"] ∧
    cleanupDeletions
      [⟨"kodo.log", false⟩, ⟨"kodo.log.20250101-00", false⟩, ⟨"kodo.log.20250102-00", false⟩] 1 =
      ["kodo.log.20250101-00"] := by
  decide

/-- Claim C2, counterexample to the stated suffix format: at rotation time
2025-10-11 07:00 the code renames `app.log` to `app.log.20251011-07` — the Go
layout `"20060102-15"` puts a dash between day and hour — not to the claimed
`app.log.2025101107` built from `YYYYMMDDHH` with no other characters. -/
theorem rotated_name_has_dash_counterexample :
    (rotateLogFile "app.log" ⟨2025, 10, 11, 7⟩).renamedTo = "app.log.20251011-07" ∧
    claimRotatedName "app.log" ⟨2025, 10, 11, 7⟩ = "app.log.2025101107" ∧
    (rotateLogFile "app.log" ⟨2025, 10, 11, 7⟩).renamedTo ≠
      claimRotatedName "app.log" ⟨2025, 10, 11, 7⟩ := by
  decide

/-- Claim C2 (amended): for every rotation at wall-clock time t the rotate
operation renames the current file to `<mainfile>.<YYYYMMDD-HH>` — 4-digit
year, 2-digit month, 2-digit day, a dash, 2-digit hour — and reopens a fresh
file at the original path. -/
theorem rotate_renames_and_reopens (fileName : String) (t : DateTime) :
    (rotateLogFile fileName t).renamedTo =
      fileName ++ "." ++ pad4 t.year ++ pad2 t.month ++ pad2 t.day ++ "-" ++ pad2 t.hour ∧
    (rotateLogFile fileName t).reopenedPath = fileName := by
  constructor
  · show fileName ++ "." ++
        (pad4 t.year ++ (pad2 t.month ++ (pad2 t.day ++ (String.singleton '-' ++ (pad2 t.hour ++ ""))))) =
      _
    simp [String.append_assoc, show String.singleton '-' = "-" from rfl]
  · rfl

/-- Claim C3, evaluated at its failing input: with `MaxLogFiles = 2` and only
2 rotated files present alongside the live main file `app.log`, the claim says
nothing is deleted, but the pass deletes the main file (only the hardcoded
`kodo.log` is excluded from the candidates); in the claim's own scenario of 5
rotated files the pass again deletes the main file along with the 3 oldest
rotated ones. -/
theorem cleanup_retention_violates_claim :
    cleanupDeletions
      [⟨"app.log", false⟩, ⟨"app.log.20250101-00", false⟩, ⟨"app.log.20250102-00", false⟩] 2 =
      ["app.log"] ∧
    cleanupDeletions
      [⟨"app.log", false⟩, ⟨"app.log.20250101-00", false⟩, ⟨"app.log.20250102-00", false⟩,
        ⟨"app.log.20250103-00", false⟩, ⟨"app.log.20250104-00", false⟩,
        ⟨"app.log.20250105-00", false⟩] 2 =
      ["app.log", "app.log.20250101-00", "app.log.20250102-00", "app.log.20250103-00"] := by
  decide

/-- Claim C4, counterexample to the stated rejection set: the config differing
from the minimal valid one only in `Level := "INFO"` has a severity outside
the literal set {error, info, debug}, yet `Validate` accepts it, because the
code lower-cases the level before comparing. -/
theorem validate_level_case_counterexample :
    Validate { minimalValidConfig with Level := "INFO" } = none ∧
    ({ minimalValidConfig with Level := "INFO" } : LoggerConfig).Level ≠ "error" ∧
    ({ minimalValidConfig with Level := "INFO" } : LoggerConfig).Level ≠ "info" ∧
    ({ minimalValidConfig with Level := "INFO" } : LoggerConfig).Level ≠ "debug" := by
  decide

/-- Claim C4 (amended): `Validate` returns an error for every config with an
empty name, or a severity whose lower-casing is outside {error, info, debug},
or syslog enabled together with an empty host or a port outside 1..65535 or a
protocol whose lower-casing is outside {udp, tcp}, or by-size rotation with
max size ≤ 0, or by-time rotation with interval hours ≤ 0, or retention
count ≤ 0; and it returns nil for the minimal valid config. -/
theorem validate_rejects_and_accepts :
    (∀ c : LoggerConfig,
      (c.LoggerName = "" ∨
        (toLowerStr c.Level ≠ "error" ∧ toLowerStr c.Level ≠ "info" ∧
          toLowerStr c.Level ≠ "debug") ∨
        (c.EnableSyslog = true ∧
          (c.SyslogHost = "" ∨ c.SyslogPort ≤ 0 ∨ c.SyslogPort > 65535 ∨
            (toLowerStr c.SyslogProtocol ≠ "udp" ∧ toLowerStr c.SyslogProtocol ≠ "tcp"))) ∨
        (c.RotationBySize = true ∧ c.MaxFileSizeMB ≤ 0) ∨
        (c.RotationBySize = false ∧ c.RotationIntervalHour ≤ 0) ∨
        c.MaxLogFiles ≤ 0) →
      Validate c ≠ none) ∧
    Validate minimalValidConfig = none := by
  constructor
  · intro c hbad hnone
    unfold Validate at hnone
    split_ifs at hnone with h1 h2 h3 h4 h5 h6 h7 h8
    rcases hbad with h | h | ⟨hs, h | h | h | h⟩ | h | h | h
    · exact h1 h
    · exact h2 h
    · exact h3 ⟨hs, h⟩
    · exact h4 ⟨hs, Or.inl h⟩
    · exact h4 ⟨hs, Or.inr h⟩
    · exact h5 ⟨hs, h.1, h.2⟩
    · exact h6 ⟨h.1, h.2⟩
    · exact h7 ⟨by simp [h.1], h.2⟩
    · exact h8 h
  · decide

/-- Witness for claim C4's theorem at concrete inputs: a config with an empty
name is rejected, the minimal valid config is accepted. -/
theorem validate_rejects_and_accepts_witness :
    Validate { minimalValidConfig with LoggerName := "" } ≠ none ∧
    Validate minimalValidConfig = none :=
  ⟨validate_rejects_and_accepts.1 { minimalValidConfig with LoggerName := "" } (Or.inl rfl),
    validate_rejects_and_accepts.2⟩

/-- Claim C5: on a view built with `Level=debug`, each of Debugf, Infof and
Errorf writes to exactly its non-nil sinks; on a view built with
`Level=error`, Debugf and Infof produce no output while Errorf writes to its
non-nil sinks; and Errorf is never suppressed at any severity threshold. -/
theorem severity_gating (hasF hasS : Bool) (p callerName text : String) (lvl : Nat) :
    ((Debugf ⟨levelFromString "debug", p, hasF, hasS⟩ callerName text).fileMsg.isSome = hasF ∧
      (Debugf ⟨levelFromString "debug", p, hasF, hasS⟩ callerName text).syslogMsg.isSome = hasS ∧
      (Infof ⟨levelFromString "debug", p, hasF, hasS⟩ callerName text).fileMsg.isSome = hasF ∧
      (Infof ⟨levelFromString "debug", p, hasF, hasS⟩ callerName text).syslogMsg.isSome = hasS ∧
      (Errorf ⟨levelFromString "debug", p, hasF, hasS⟩ callerName text).fileMsg.isSome = hasF ∧
      (Errorf ⟨levelFromString "debug", p, hasF, hasS⟩ callerName text).syslogMsg.isSome = hasS) ∧
    (Debugf ⟨levelFromString "error", p, hasF, hasS⟩ callerName text = ⟨none, none⟩ ∧
      Infof ⟨levelFromString "error", p, hasF, hasS⟩ callerName text = ⟨none, none⟩ ∧
      (Errorf ⟨levelFromString "error", p, hasF, hasS⟩ callerName text).fileMsg.isSome = hasF ∧
      (Errorf ⟨levelFromString "error", p, hasF, hasS⟩ callerName text).syslogMsg.isSome = hasS) ∧
    ((Errorf ⟨lvl, p, hasF, hasS⟩ callerName text).fileMsg.isSome = hasF ∧
      (Errorf ⟨lvl, p, hasF, hasS⟩ callerName text).syslogMsg.isSome = hasS) := by
  rw [levelFromString_debug, levelFromString_error]
  cases hasF <;> cases hasS <;>
    simp [Debugf, Infof, Errorf, LogLevelDebug, LogLevelInfo, LogLevelError]

/-- Claim C6: on the accepted path of each facade method the caller-name
segment is part of the composed message exactly when the view's threshold is
at or above debug: a debug-level view composes
`<prefix><caller>: <tag>: <text>` for all three methods, while an info- or
error-level view composes `<prefix><tag>: <text>` with no caller segment. -/
theorem caller_name_gating (lvl : Nat) (p callerName text : String) :
    (LogLevelDebug ≤ lvl →
      (Errorf ⟨lvl, p, true, true⟩ callerName text).fileMsg =
        some (p ++ (callerName ++ ": ") ++ "error: " ++ text) ∧
      (Infof ⟨lvl, p, true, true⟩ callerName text).fileMsg =
        some (p ++ (callerName ++ ": ") ++ "info: " ++ text) ∧
      (Debugf ⟨lvl, p, true, true⟩ callerName text).fileMsg =
        some (p ++ (callerName ++ ": ") ++ "debug: " ++ text)) ∧
    (lvl < LogLevelDebug →
      (Errorf ⟨lvl, p, true, true⟩ callerName text).fileMsg =
        some (p ++ "error: " ++ text) ∧
      (LogLevelInfo ≤ lvl →
        (Infof ⟨lvl, p, true, true⟩ callerName text).fileMsg =
          some (p ++ "info: " ++ text))) := by
  constructor
  · intro h
    have hi : LogLevelInfo ≤ lvl := by
      simp only [LogLevelDebug, LogLevelInfo] at h ⊢
      omega
    simp [Errorf, Infof, Debugf, h, hi]
  · intro h
    have h' : ¬ LogLevelDebug ≤ lvl := by
      simp only [LogLevelDebug] at h ⊢
      omega
    constructor
    · simp [Errorf, h']
    · intro hi
      simp [Infof, h', hi]

/-- Witness for claim C6's theorem: a debug-level view tags an Errorf message
with the caller name, an info-level view does not. -/
theorem caller_name_gating_witness :
    (Errorf ⟨2, "p: ", true, true⟩ "main" "x").fileMsg =
      some ("p: " ++ ("main" ++ ": ") ++ "error: " ++ "x") ∧
    (Errorf ⟨1, "p: ", true, true⟩ "main" "x").fileMsg =
      some ("p: " ++ "error: " ++ "x") :=
  ⟨((caller_name_gating 2 "p: " "main" "x").1 (by decide)).1,
    ((caller_name_gating 1 "p: " "main" "x").2 (by decide)).1⟩

/-- Claim C7: one iteration of the time-based rotation loop rotates exactly
when the observed hour differs from the remembered hour and the new hour is an
exact multiple of the interval-in-hours; when the hour changes without being
such a multiple, no rotation happens but the remembered hour is still updated;
when the hour is unchanged nothing happens. -/
theorem time_rotation_fires_iff (lastHour currentHour intervalHours : Int) :
    ((timeRotationStep lastHour currentHour intervalHours).1 = true ↔
      currentHour ≠ lastHour ∧ Int.tmod currentHour intervalHours = 0) ∧
    (currentHour ≠ lastHour →
      (timeRotationStep lastHour currentHour intervalHours).2 = currentHour) ∧
    (currentHour ≠ lastHour → Int.tmod currentHour intervalHours ≠ 0 →
      (timeRotationStep lastHour currentHour intervalHours).1 = false) ∧
    (currentHour = lastHour →
      (timeRotationStep lastHour currentHour intervalHours).1 = false ∧
      (timeRotationStep lastHour currentHour intervalHours).2 = lastHour) := by
  by_cases h1 : currentHour = lastHour
  · simp [timeRotationStep, h1]
  · by_cases h2 : Int.tmod currentHour intervalHours = 0 <;>
      simp [timeRotationStep, h1, h2]

/-- Witness for claim C7's theorem: with remembered hour 3 and interval 2,
observing hour 4 rotates and remembers 4; observing hour 5 does not rotate
but still remembers 5. -/
theorem time_rotation_fires_iff_witness :
    (timeRotationStep 3 4 2).2 = 4 ∧
    (timeRotationStep 3 5 2).1 = false ∧
    (timeRotationStep 3 5 2).2 = 5 :=
  ⟨(time_rotation_fires_iff 3 4 2).2.1 (by decide),
    (time_rotation_fires_iff 3 5 2).2.2.1 (by decide) (by decide),
    (time_rotation_fires_iff 3 5 2).2.1 (by decide)⟩

/-- Claim C8, counterexample: the constructor returned by `InitLoggerFactory`
in logger/logger.go sets the shared logger's prefix to `logPrefix + ": "`
unconditionally, so the empty prefix yields the stray separator `": "` as
prefix text rather than no prefix text. -/
theorem empty_pfx_stray_separator_counterexample :
    InitLoggerFactorySetPfx "" = ": " ∧ InitLoggerFactorySetPfx "" ≠ "" := by
  decide

/-- Claim C8 (amended): for the struct-copy constructor returned by
`initLoggerFactory` (part_000), the empty prefix yields a view whose prefix
text is empty and whose composed messages carry no stray separator, while a
non-empty prefix p yields a view whose messages begin with p followed by the
separator `": "`; the legacy `InitLoggerFactory` in logger/logger.go instead
always appends the separator, giving a stray `": "` for the empty prefix. -/
theorem factory_view_pfx (base : GoLogger) (q callerName text p : String) (hp : p ≠ "") :
    (initLoggerFactoryView base "").pfx = "" ∧
    (initLoggerFactoryView base p).pfx = p ++ ": " ∧
    (Errorf (initLoggerFactoryView ⟨LogLevelError, q, true, false⟩ "") callerName text).fileMsg =
      some ("error: " ++ text) ∧
    (Errorf (initLoggerFactoryView ⟨LogLevelError, q, true, false⟩ p) callerName text).fileMsg =
      some (p ++ ": " ++ ("error: " ++ text)) := by
  refine ⟨rfl, by simp [initLoggerFactoryView, hp], ?_, ?_⟩
  · simp [initLoggerFactoryView, Errorf, LogLevelError, LogLevelDebug]
  · simp [initLoggerFactoryView, Errorf, hp, LogLevelError, LogLevelDebug, String.append_assoc]
    rw [← String.append_assoc ": " "error: " text]
    rfl

/-- Witness for claim C8's theorem at a concrete non-empty prefix. -/
theorem factory_view_pfx_witness :
    (initLoggerFactoryView ⟨0, "", true, false⟩ "").pfx = "" ∧
    (initLoggerFactoryView ⟨0, "", true, false⟩ "worker").pfx = "worker" ++ ": " ∧
    (Errorf (initLoggerFactoryView ⟨LogLevelError, "", true, false⟩ "worker") "main" "x").fileMsg =
      some ("worker" ++ ": " ++ ("error: " ++ "x")) :=
  ⟨(factory_view_pfx ⟨0, "", true, false⟩ "" "main" "x" "worker" (by decide)).1,
    (factory_view_pfx ⟨0, "", true, false⟩ "" "main" "x" "worker" (by decide)).2.1,
    (factory_view_pfx ⟨0, "", true, false⟩ "" "main" "x" "worker" (by decide)).2.2.2⟩

/-- Claim C9: cleanup failures are non-fatal.  A directory-listing failure is
reported as a diagnostic and nothing is deleted; the deletion loop removes
exactly the candidates whose delete succeeds, so one failed delete leaves the
other candidates processed, and every failed delete leaves a diagnostic.  In
all cases the pass returns normally (the function is total). -/
theorem cleanup_failures_nonfatal (maxLogFiles : Int) (removeOk : String → Bool)
    (files : List DirEntry) :
    (cleanupLogFilesRun none maxLogFiles removeOk).deleted = [] ∧
    (cleanupLogFilesRun none maxLogFiles removeOk).diag =
      ["failed to read log output folder"] ∧
    (cleanupLogFilesRun (some files) maxLogFiles removeOk).deleted =
      (cleanupDeletions files maxLogFiles).filter removeOk ∧
    (∀ f ∈ cleanupDeletions files maxLogFiles, removeOk f = false →
      ("failed to delete old log file " ++ f) ∈
        (cleanupLogFilesRun (some files) maxLogFiles removeOk).diag) :=
  ⟨rfl, rfl, attemptDeletes_deleted_eq_filter removeOk _,
    fun f hf hfail => attemptDeletes_diag_mem removeOk _ f hf hfail⟩

/-- Witness for claim C9's theorem: a failing delete of `app.log` is reported
while the listing-failure case deletes nothing, and the surviving candidate
`b.log` is still deleted. -/
theorem cleanup_failures_nonfatal_witness :
    ("failed to delete old log file " ++ "app.log") ∈
      (cleanupLogFilesRun (some [⟨"app.log", false⟩, ⟨"b.log", false⟩, ⟨"c.log", false⟩]) 1
        (fun n => n != "app.log")).diag ∧
    (cleanupLogFilesRun (some [⟨"app.log", false⟩, ⟨"b.log", false⟩, ⟨"c.log", false⟩]) 1
        (fun n => n != "app.log")).deleted =
      (cleanupDeletions [⟨"app.log", false⟩, ⟨"b.log", false⟩, ⟨"c.log", false⟩] 1).filter
        (fun n => n != "app.log") ∧
    (cleanupLogFilesRun none 1 (fun n => n != "app.log")).deleted = [] :=
  ⟨(cleanup_failures_nonfatal 1 (fun n => n != "app.log")
        [⟨"app.log", false⟩, ⟨"b.log", false⟩, ⟨"c.log", false⟩]).2.2.2
      "app.log" (by decide) (by decide),
    (cleanup_failures_nonfatal 1 (fun n => n != "app.log")
        [⟨"app.log", false⟩, ⟨"b.log", false⟩, ⟨"c.log", false⟩]).2.2.1,
    (cleanup_failures_nonfatal 1 (fun n => n != "app.log")
        [⟨"app.log", false⟩, ⟨"b.log", false⟩, ⟨"c.log", false⟩]).1⟩

/-- Claim C10, counterexample: `Validate` only requires
`RotationIntervalHour > 0`, but `time.Duration(h) * time.Hour` is an int64
multiplication and wraps.  The validated value h = 2^51 = 2251799813685248
wraps to a zero duration, so the divisor of the time-based modulo is 0 — in
Go, a division by zero — and the validated value 2562048 wraps negative,
giving divisor -2562047 < 1.  So the claim that every validated time-mode
config yields a divisor of at least 1 is false of the program. -/
theorem interval_overflow_counterexample :
    Validate
        { minimalValidConfig with RotationBySize := false, RotationIntervalHour := 2251799813685248 } =
      none ∧
    intervalWholeHours 2251799813685248 = 0 ∧
    Validate
        { minimalValidConfig with RotationBySize := false, RotationIntervalHour := 2562048 } =
      none ∧
    intervalWholeHours 2562048 = -2562047 := by
  decide

/-- Claim C10 (amended): for every config accepted by `Validate` with
`RotationBySize=false` whose `RotationIntervalHour` is at most 2562047 — the
largest value for which the int64 product `time.Duration(h) * time.Hour` does
not overflow — the divisor used by the time-based branch equals
`RotationIntervalHour` and is at least 1, so the modulo on the current hour is
well-defined; with the unvalidated value 0 the divisor is 0 (in Go, a
division by zero).  Beyond that bound the guarantee fails, as the
counterexample shows. -/
theorem validated_interval_divisor_positive (c : LoggerConfig)
    (hv : Validate c = none) (htime : c.RotationBySize = false)
    (hnof : c.RotationIntervalHour ≤ 2562047) :
    intervalWholeHours c.RotationIntervalHour = c.RotationIntervalHour ∧
    1 ≤ intervalWholeHours c.RotationIntervalHour ∧
    intervalWholeHours 0 = 0 := by
  have hpos : 1 ≤ c.RotationIntervalHour := by
    unfold Validate at hv
    split_ifs at hv with h1 h2 h3 h4 h5 h6 h7 h8
    have : ¬ c.RotationIntervalHour ≤ 0 := fun hle => h7 ⟨by simp [htime], hle⟩
    omega
  have hns : nsPerHour = 3600000000000 := rfl
  have h0 : 0 ≤ c.RotationIntervalHour * nsPerHour := by
    rw [hns]; omega
  have hlt : c.RotationIntervalHour * nsPerHour < 9223372036854775808 := by
    rw [hns]; omega
  have heq : intervalWholeHours c.RotationIntervalHour = c.RotationIntervalHour := by
    unfold intervalWholeHours rotationIntervalNs
    rw [wrap64_eq_of_lt h0 hlt, Int.mul_tdiv_cancel _ (by decide : nsPerHour ≠ 0)]
  refine ⟨heq, ?_, by decide⟩
  rw [heq]
  exact hpos

/-- Witness for claim C10's theorem at the minimal valid time-based config. -/
theorem validated_interval_divisor_positive_witness :
    intervalWholeHours
        ({ minimalValidConfig with RotationBySize := false, RotationIntervalHour := 1 } :
          LoggerConfig).RotationIntervalHour =
      ({ minimalValidConfig with RotationBySize := false, RotationIntervalHour := 1 } :
          LoggerConfig).RotationIntervalHour ∧
    1 ≤ intervalWholeHours
      ({ minimalValidConfig with RotationBySize := false, RotationIntervalHour := 1 } :
        LoggerConfig).RotationIntervalHour ∧
    intervalWholeHours 0 = 0 :=
  validated_interval_divisor_positive
    { minimalValidConfig with RotationBySize := false, RotationIntervalHour := 1 }
    (by decide) (by decide) (by decide)

end Goutils
